import Mathlib

/-!
Shallow embedding of the Speccs backend (src/app.py): the SQLAlchemy data
model (Property, Building, Floor, Room, Asset, Connection, Journal), its
serialization methods (`to_dict`), the cascade semantics implied by the
declared relationships, and the two implemented API routes
(`create_property`, `get_properties`).

Modelling conventions:
* JSON values are an inductive `Json`; Python truthiness (`if not data`) is
  `pyTruthy`.
* The database is a record of lists of rows, one list per table.
* `db.func.now()` timestamps are modelled as a `DateTime` record of civil
  fields; `datetime.isoformat()` is the usual zero-padded ISO-8601 rendering
  (whole seconds, no timezone suffix, which is irrelevant to the claims).
* SQL `Numeric(p, s)` columns (Python `Decimal`) are modelled as exact
  rationals; the route-level `float(...)` conversion is the identity on the
  numeric value (double rounding is not modelled).
* `str(uuid.uuid4())` is modelled as `default_uuid r` where `r` supplies the
  122 random bits of a version-4 UUID; the canonical 8-4-4-4-12 hex rendering
  is reproduced exactly.
* Per-request nondeterminism (the drawn UUID bits, the commit timestamp,
  whether the storage backend raises) is an `Env` record.
-/

namespace Speccs

/-- JSON values, as produced by `request.get_json()` / consumed by `jsonify`. -/
inductive Json where
  | null
  | bool (b : Bool)
  | num (q : ℚ)
  | str (s : String)
  | arr (elems : List Json)
  | obj (fields : List (String × Json))

/-- Python truthiness of a JSON value (`if not data`, `if not data.get('name')`):
`None`, `False`, `0`, `""`, `[]`, `{}` are falsy, everything else truthy. -/
def pyTruthy : Json → Bool
  | .null => false
  | .bool b => b
  | .num q => !(q == 0)
  | .str s => !(s == "")
  | .arr elems => !elems.isEmpty
  | .obj fields => !fields.isEmpty

/-- Truthiness of `d.get(k)` style results: Python `None` (absent) is falsy. -/
def pyTruthyOpt : Option Json → Bool
  | none => false
  | some v => pyTruthy v

/-- `dict.get(k)`: look a key up in a JSON object (first binding wins);
non-objects have no keys. -/
def dictGet : Json → String → Option Json
  | .obj fields, k => (fields.find? (fun p => p.1 == k)).map (·.2)
  | _, _ => none

/-- A civil timestamp, the value of `db.func.now()` as seen through
SQLAlchemy's `TIMESTAMP` column (whole seconds). -/
structure DateTime where
  year : Nat
  month : Nat
  day : Nat
  hour : Nat
  minute : Nat
  second : Nat
deriving DecidableEq

/-- A civil date (`db.Date`, Python `datetime.date`). -/
structure Date where
  year : Nat
  month : Nat
  day : Nat
deriving DecidableEq

/-- Decimal digit characters of `n`, zero-padded/truncated to width `w`,
most significant first. -/
def padDigits : Nat → Nat → List Char
  | 0, _ => []
  | w + 1, n => padDigits w (n / 10) ++ [Char.ofNat (48 + n % 10)]

/-- Zero-padded decimal rendering of `n` at width `w`. -/
def padNum (w n : Nat) : String :=
  String.mk (padDigits w n)

/-- `datetime.date.isoformat()`: `YYYY-MM-DD`. -/
def Date.isoformat (d : Date) : String :=
  padNum 4 d.year ++ "-" ++ padNum 2 d.month ++ "-" ++ padNum 2 d.day

/-- `datetime.datetime.isoformat()`: `YYYY-MM-DDTHH:MM:SS`. -/
def DateTime.isoformat (t : DateTime) : String :=
  padNum 4 t.year ++ "-" ++ padNum 2 t.month ++ "-" ++ padNum 2 t.day ++ "T" ++
    padNum 2 t.hour ++ ":" ++ padNum 2 t.minute ++ ":" ++ padNum 2 t.second

/-- Lowercase hex digit for `n % 16`. -/
def hexDigit (n : Nat) : Char :=
  if n % 16 < 10 then Char.ofNat (48 + n % 16) else Char.ofNat (87 + n % 16)

/-- Hex digit characters of `n`, zero-padded/truncated to width `w`,
most significant first. -/
def hexChars : Nat → Nat → List Char
  | 0, _ => []
  | w + 1, n => hexChars w (n / 16) ++ [hexDigit (n % 16)]

/-- `str(uuid.uuid4())` (src/app.py line 35, `default_uuid`): the canonical
8-4-4-4-12 rendering of a version-4 UUID, with `r` supplying the 122 random
bits (32 + 16 + 12 + 2 + 12 + 48). The third group starts with the version
nibble `4`; the fourth group starts with the variant nibble `8 + 2 bits`. -/
def default_uuid (r : Nat) : String :=
  String.mk (hexChars 8 (r / 2 ^ 90)
    ++ '-' :: hexChars 4 (r / 2 ^ 74 % 2 ^ 16)
    ++ '-' :: '4' :: hexChars 3 (r / 2 ^ 62 % 2 ^ 12)
    ++ '-' :: hexDigit (8 + r / 2 ^ 60 % 4) :: hexChars 3 (r / 2 ^ 48 % 2 ^ 12)
    ++ '-' :: hexChars 12 (r % 2 ^ 48))

/-! ## Table rows (src/app.py lines 38-263) -/

/-- A row of `properties` (class `Property`, lines 38-62). `name` and
`address` hold whatever JSON values the route passed to the constructor
(the route performs no type coercion); `created_at`/`updated_at` are filled
by the `server_default=db.func.now()` at insert. -/
structure Property where
  id : String
  name : Json
  address : Json
  created_at : Option DateTime
  updated_at : Option DateTime

/-- A row of `buildings` (class `Building`, lines 64-88). -/
structure Building where
  id : String
  property_id : String
  name : String
  building_type : Option String
  created_at : Option DateTime
  updated_at : Option DateTime

/-- A row of `floors` (class `Floor`, lines 90-114). -/
structure Floor where
  id : String
  building_id : String
  name : String
  level_order : Int
  created_at : Option DateTime
  updated_at : Option DateTime

/-- A row of `rooms` (class `Room`, lines 117-148). `reference_door_asset_id`
is a nullable FK to `assets.id`, declared with `use_alter=True` and realised
through the `post_update=True` relationship `reference_door` (lines 125, 133). -/
structure Room where
  id : String
  floor_id : String
  name : String
  description : Option String
  reference_door_asset_id : Option String
  created_at : Option DateTime
  updated_at : Option DateTime

/-- A row of `assets` (class `Asset`, lines 150-215). `room_id` is a nullable
FK to `rooms.id` (line 155); the `Numeric(5,2)`/`Numeric(10,2)` columns are
exact rationals. -/
structure Asset where
  id : String
  room_id : Option String
  asset_type : String
  name : Option String
  description : Option String
  install_date : Option Date
  status : String
  location_angle_degrees : Option ℚ
  location_height_percent : Option ℚ
  location_depth_percent : Option ℚ
  location_notes : Option String
  wall_length : Option ℚ
  wall_length_unit : Option String
  wall_height : Option ℚ
  wall_height_unit : Option String
  attributes : Json
  created_at : Option DateTime
  updated_at : Option DateTime

/-- A row of `connections` (class `Connection`, lines 218-239): a directed,
typed edge between two assets. -/
structure Connection where
  id : String
  from_asset_id : String
  to_asset_id : String
  connection_type : String
  description : Option String
  created_at : Option DateTime

/-- A row of `journal` (class `Journal`, lines 241-263): an audit entry about
one asset, keyed by a `BigInteger`. -/
structure Journal where
  id : Int
  asset_id : String
  user_identifier : String
  timestamp : Option DateTime
  action : String
  details : Json

/-- The relational store: one list of rows per table. -/
structure DB where
  properties : List Property
  buildings : List Building
  floors : List Floor
  rooms : List Room
  assets : List Asset
  connections : List Connection
  journals : List Journal

/-- The empty store. -/
def emptyDB : DB :=
  ⟨[], [], [], [], [], [], []⟩

/-! ## Serialization (`to_dict` methods) -/

/-- `x if x else None` for string columns. -/
def optStr : Option String → Json
  | some s => .str s
  | none => .null

/-- `float(x) if x is not None else None` for `Numeric` columns (lines
200-206): the numeric value as a JSON number, or null. -/
def optNum : Option ℚ → Json
  | some q => .num q
  | none => .null

/-- `x.isoformat() if x else None` for `Date` columns. (A Python `date` is
always truthy, so the guard coincides with an `is not None` test.) -/
def optDateIso : Option Date → Json
  | some d => .str d.isoformat
  | none => .null

/-- `x.isoformat() if x else None` for `TIMESTAMP` columns. (A Python
`datetime` is always truthy, so the guard coincides with `is not None`.) -/
def optDateTimeIso : Option DateTime → Json
  | some t => .str t.isoformat
  | none => .null

/-- `Property.to_dict` (lines 53-62). -/
def Property.to_dict (p : Property) : Json :=
  .obj [("id", .str p.id),
        ("name", p.name),
        ("address", p.address),
        ("created_at", optDateTimeIso p.created_at),
        ("updated_at", optDateTimeIso p.updated_at)]

/-- `Connection.to_dict` (lines 231-239). -/
def Connection.to_dict (c : Connection) : Json :=
  .obj [("id", .str c.id),
        ("from_asset_id", .str c.from_asset_id),
        ("to_asset_id", .str c.to_asset_id),
        ("connection_type", .str c.connection_type),
        ("description", optStr c.description),
        ("created_at", optDateTimeIso c.created_at)]

/-- The rows of the relationship `Asset.connections_from` (line 182):
connections whose `from_asset_id` is this asset. -/
def connectionsFrom (db : DB) (aid : String) : List Connection :=
  db.connections.filter (fun c => c.from_asset_id == aid)

/-- The rows of the relationship `Asset.connections_to` (line 184):
connections whose `to_asset_id` is this asset. -/
def connectionsTo (db : DB) (aid : String) : List Connection :=
  db.connections.filter (fun c => c.to_asset_id == aid)

/-- `Asset.to_dict(include_connections=False)` (lines 191-215). The `db`
argument stands for the session the relationship queries run against; it is
consulted only when `include_connections` is true. -/
def Asset.to_dict (db : DB) (a : Asset) (include_connections : Bool) : Json :=
  .obj ([("id", .str a.id),
         ("room_id", optStr a.room_id),
         ("asset_type", .str a.asset_type),
         ("name", optStr a.name),
         ("description", optStr a.description),
         ("install_date", optDateIso a.install_date),
         ("status", .str a.status),
         ("location_angle_degrees", optNum a.location_angle_degrees),
         ("location_height_percent", optNum a.location_height_percent),
         ("location_depth_percent", optNum a.location_depth_percent),
         ("location_notes", optStr a.location_notes),
         ("wall_length", optNum a.wall_length),
         ("wall_length_unit", optStr a.wall_length_unit),
         ("wall_height", optNum a.wall_height),
         ("wall_height_unit", optStr a.wall_height_unit),
         ("attributes", a.attributes),
         ("created_at", optDateTimeIso a.created_at),
         ("updated_at", optDateTimeIso a.updated_at)] ++
    (if include_connections then
      [("connections_from", .arr ((connectionsFrom db a.id).map Connection.to_dict)),
       ("connections_to", .arr ((connectionsTo db a.id).map Connection.to_dict))]
     else []))

/-! ## API layer (src/app.py lines 283-305) -/

/-- Per-request nondeterminism: `uuidBits` are the random bits drawn by
`uuid.uuid4()`, `now` is the transaction timestamp the `server_default`
columns receive, `commitOk`/`queryOk` say whether the storage backend
raises on `db.session.commit()` / `Property.query.all()`. -/
structure Env where
  uuidBits : Nat
  now : DateTime
  commitOk : Bool
  queryOk : Bool

/-- An HTTP response: status code and JSON body. -/
structure Response where
  status : Nat
  body : Json

/-- The 400 body of the `name` validation failure (line 287). -/
def nameRequired : Response :=
  ⟨400, .obj [("error", .str "Property name is required")]⟩

/-- The row `Property(name=data['name'], address=data.get('address'))`
receives once the insert is flushed: id from `default_uuid`, both timestamp
columns filled by the same `now()` (lines 41-45, 288). -/
def newPropertyRow (env : Env) (name address : Json) : Property :=
  { id := default_uuid env.uuidBits
    name := name
    address := address
    created_at := some env.now
    updated_at := some env.now }

/-- `create_property` (POST /api/properties, lines 283-296). `data` is the
result of `request.get_json()` (`none` when the body is absent or the JSON
literal `null`). Returns the response together with the store after the
request: on validation failure nothing is touched; on commit failure the
session is rolled back, leaving the store as it was. -/
def create_property (data : Option Json) (env : Env) (db : DB) : Response × DB :=
  match data with
  | none => (nameRequired, db)
  | some d =>
    if !pyTruthy d || !pyTruthyOpt (dictGet d "name") then
      (nameRequired, db)
    else
      let row := newPropertyRow env ((dictGet d "name").getD .null)
        ((dictGet d "address").getD .null)
      if env.commitOk then
        (⟨201, row.to_dict⟩, { db with properties := db.properties ++ [row] })
      else
        (⟨500, .obj [("error", .str "Failed to create property")]⟩, db)

/-- `get_properties` (GET /api/properties, lines 298-305). -/
def get_properties (env : Env) (db : DB) : Response :=
  if env.queryOk then
    ⟨200, .arr (db.properties.map Property.to_dict)⟩
  else
    ⟨500, .obj [("error", .str "Failed to fetch properties")]⟩

/-! ## Cascade delete semantics

The relationships `Property.buildings` (line 48), `Building.floors`
(line 75) and `Floor.rooms` (line 101) are declared with
`cascade="all, delete-orphan"`, so deleting an owner deletes those children.
`Room.assets` (line 130) declares NO delete cascade: under SQLAlchemy's
default `save-update, merge` cascade, deleting a Room de-associates its
assets by nulling the nullable FK `Asset.room_id` instead of deleting them.
`Asset.connections_from` / `connections_to` / `journal_entries` (lines
182-186) do cascade, but only when an Asset itself is deleted. -/

/-- Ids of the buildings owned by property `pid`. -/
def buildingIdsOf (db : DB) (pid : String) : List String :=
  (db.buildings.filter (fun b => b.property_id == pid)).map (·.id)

/-- Ids of the floors owned by the buildings `bids`. -/
def floorIdsOf (db : DB) (bids : List String) : List String :=
  (db.floors.filter (fun f => bids.contains f.building_id)).map (·.id)

/-- Ids of the rooms owned by the floors `fids`. -/
def roomIdsOf (db : DB) (fids : List String) : List String :=
  (db.rooms.filter (fun r => fids.contains r.floor_id)).map (·.id)

/-- Whether an asset's `room_id` points into `rids`. -/
def Asset.inRooms (a : Asset) (rids : List String) : Bool :=
  match a.room_id with
  | some rid => rids.contains rid
  | none => false

/-- `db.session.delete(property)` followed by flush, under the cascades
declared in the source: the property, its buildings, their floors and their
rooms are deleted; the assets of the deleted rooms are de-associated
(`room_id` set to NULL) because `Room.assets` declares no delete cascade;
connections and journal rows are untouched because no asset is deleted. -/
def deleteProperty (db : DB) (pid : String) : DB :=
  let bids := buildingIdsOf db pid
  let fids := floorIdsOf db bids
  let rids := roomIdsOf db fids
  { db with
    properties := db.properties.filter (fun p => !(p.id == pid))
    buildings := db.buildings.filter (fun b => !(b.property_id == pid))
    floors := db.floors.filter (fun f => !(bids.contains f.building_id))
    rooms := db.rooms.filter (fun r => !(fids.contains r.floor_id))
    assets := db.assets.map (fun a =>
      if a.inRooms rids then { a with room_id := none } else a) }

/-! ## Circular Room ↔ Asset creation

`Room.reference_door_asset_id` is a nullable FK to `assets.id` declared with
`use_alter=True` and realised by the `post_update=True` relationship
`reference_door` (lines 125, 133); `Asset.room_id` is a nullable FK to
`rooms.id` (line 155). Each write below checks the foreign keys the way the
database checks them statement by statement; a mutually-referencing pair is
created by inserting the first entity with its reference NULL, inserting the
second with its reference set, then patching the first (exactly the
`post_update` flush pattern). -/

/-- Whether a floor with this id exists. -/
def floorExists (db : DB) (fid : String) : Bool :=
  db.floors.any (fun f => f.id == fid)

/-- Whether a room with this id exists. -/
def roomExists (db : DB) (rid : String) : Bool :=
  db.rooms.any (fun r => r.id == rid)

/-- Whether an asset with this id exists. -/
def assetExists (db : DB) (aid : String) : Bool :=
  db.assets.any (fun a => a.id == aid)

/-- Whether an optional FK value is satisfiable: NULL (both FKs are
nullable) or a reference to an existing row. -/
def optFkOk (check : String → Bool) : Option String → Bool
  | none => true
  | some x => check x

/-- INSERT INTO rooms, checking `floor_id` (NOT NULL FK) and
`reference_door_asset_id` (nullable FK) against the current rows. -/
def insertRoom (db : DB) (r : Room) : Option DB :=
  if floorExists db r.floor_id && optFkOk (assetExists db) r.reference_door_asset_id then
    some { db with rooms := db.rooms ++ [r] }
  else
    none

/-- INSERT INTO assets, checking the nullable FK `room_id`. -/
def insertAsset (db : DB) (a : Asset) : Option DB :=
  if optFkOk (roomExists db) a.room_id then
    some { db with assets := db.assets ++ [a] }
  else
    none

/-- UPDATE rooms SET reference_door_asset_id (the `post_update` statement),
checking the FK against the current assets. -/
def setRoomReferenceDoor (db : DB) (rid : String) (v : Option String) : Option DB :=
  if optFkOk (assetExists db) v then
    some { db with rooms := db.rooms.map (fun r =>
      if r.id == rid then { r with reference_door_asset_id := v } else r) }
  else
    none

/-- UPDATE assets SET room_id, checking the FK against the current rooms. -/
def setAssetRoom (db : DB) (aid : String) (v : Option String) : Option DB :=
  if optFkOk (roomExists db) v then
    some { db with assets := db.assets.map (fun a =>
      if a.id == aid then { a with room_id := v } else a) }
  else
    none

/-- Create a mutually-referencing Room/Asset pair, Room first: the room is
inserted with its reference door NULL, the asset is inserted pointing at the
room, then the room's reference door is patched in. -/
def createPairRoomFirst (db : DB) (room : Room) (asset : Asset) : Option DB :=
  (insertRoom db { room with reference_door_asset_id := none }).bind fun db1 =>
    (insertAsset db1 asset).bind fun db2 =>
      setRoomReferenceDoor db2 room.id room.reference_door_asset_id

/-- Create a mutually-referencing Room/Asset pair, Asset first: the asset is
inserted with its `room_id` NULL, the room is inserted pointing at the
asset, then the asset's `room_id` is patched in. -/
def createPairAssetFirst (db : DB) (room : Room) (asset : Asset) : Option DB :=
  (insertAsset db { asset with room_id := none }).bind fun db1 =>
    (insertRoom db1 room).bind fun db2 =>
      setAssetRoom db2 asset.id asset.room_id

/-- The store contains a room `rid` and an asset `aid` referencing each
other: the room's reference door is the asset, the asset's container is the
room. -/
def mutualPair (db : DB) (rid aid : String) : Prop :=
  (∃ r ∈ db.rooms, r.id = rid ∧ r.reference_door_asset_id = some aid) ∧
  (∃ a ∈ db.assets, a.id = aid ∧ a.room_id = some rid)

/-! ## Sample data used by witnesses and counterexamples -/

/-- A fixed timestamp. -/
def ts0 : DateTime := ⟨2025, 1, 1, 0, 0, 0⟩

/-- An environment whose storage backend behaves. -/
def envOk : Env := ⟨0, ts0, true, true⟩

/-- An environment whose storage backend raises on commit and on query. -/
def envFail : Env := ⟨7, ts0, false, false⟩

/-! ## Helper lemmas -/

/-- A JSON value with a retrievable key is a non-empty object, hence truthy. -/
theorem pyTruthy_of_dictGet {d : Json} {k : String} {v : Json}
    (h : dictGet d k = some v) : pyTruthy d = true := by
  cases d with
  | obj fields =>
    cases fields with
    | nil => simp [dictGet, List.find?] at h
    | cons p fs => simp [pyTruthy]
  | null => simp [dictGet] at h
  | bool b => simp [dictGet] at h
  | num q => simp [dictGet] at h
  | str s => simp [dictGet] at h
  | arr elems => simp [dictGet] at h

/-- `create_property` on a body with a truthy `name` and a working backend:
the new row is appended and echoed with status 201. -/
theorem create_property_ok {d nm : Json} (env : Env) (db : DB)
    (hn : dictGet d "name" = some nm) (ht : pyTruthy nm = true)
    (hc : env.commitOk = true) :
    create_property (some d) env db =
      (⟨201, (newPropertyRow env nm ((dictGet d "address").getD .null)).to_dict⟩,
       { db with properties :=
          db.properties ++ [newPropertyRow env nm ((dictGet d "address").getD .null)] }) := by
  have hd : pyTruthy d = true := pyTruthy_of_dictGet hn
  simp [create_property, hn, hd, pyTruthyOpt, ht, hc]

/-- C3: a create-Property request whose body is absent, lacks a `name` key,
or carries an empty-string `name` persists no row (the store is returned
unchanged) and yields status 400 with body
`{"error": "Property name is required"}`. -/
theorem create_property_requires_name (env : Env) (db : DB) (d : Json)
    (h : dictGet d "name" = none ∨ dictGet d "name" = some (.str "")) :
    create_property none env db = (nameRequired, db) ∧
    create_property (some d) env db = (nameRequired, db) ∧
    nameRequired.status = 400 ∧
    nameRequired.body = .obj [("error", .str "Property name is required")] := by
  refine ⟨rfl, ?_, rfl, rfl⟩
  rcases h with h | h <;> simp [create_property, h, pyTruthyOpt, pyTruthy]

/-- C3 witness: the missing-`name` branch evaluated on the body
`{"address": "x"}` against the empty store. -/
theorem create_property_requires_name_witness :
    create_property none envOk emptyDB = (nameRequired, emptyDB) ∧
    create_property (some (.obj [("address", .str "x")])) envOk emptyDB =
      (nameRequired, emptyDB) ∧
    nameRequired.status = 400 ∧
    nameRequired.body = .obj [("error", .str "Property name is required")] :=
  create_property_requires_name envOk emptyDB (.obj [("address", .str "x")]) (Or.inl rfl)

/-- C9: validation is by Python truthiness, so an absent/null body and every
falsy `name` value (null, false, 0, empty string) is rejected with the same
400 response; the store is unchanged and the outcome does not depend on the
storage environment at all (no storage access occurs). -/
theorem create_property_rejects_falsy (env env2 : Env) (db : DB) (d v : Json)
    (hv : dictGet d "name" = some v) (hfalsy : pyTruthy v = false) :
    create_property none env db = (nameRequired, db) ∧
    create_property none env db = create_property none env2 db ∧
    create_property (some d) env db = (nameRequired, db) ∧
    create_property (some d) env db = create_property (some d) env2 db := by
  have h400 : ∀ e : Env, create_property (some d) e db = (nameRequired, db) := by
    intro e
    simp [create_property, hv, pyTruthyOpt, hfalsy]
  exact ⟨rfl, rfl, h400 env, (h400 env).trans (h400 env2).symm⟩

/-- C9 witness: the body `{"name": 0, "id": "attacker"}` is rejected whether
or not the backend would fail, leaving the store empty. -/
theorem create_property_rejects_falsy_witness :
    create_property none envOk emptyDB = (nameRequired, emptyDB) ∧
    create_property none envOk emptyDB = create_property none envFail emptyDB ∧
    create_property (some (.obj [("name", .num 0), ("id", .str "attacker")])) envOk emptyDB =
      (nameRequired, emptyDB) ∧
    create_property (some (.obj [("name", .num 0), ("id", .str "attacker")])) envOk emptyDB =
      create_property (some (.obj [("name", .num 0), ("id", .str "attacker")])) envFail emptyDB :=
  create_property_rejects_falsy envOk envFail emptyDB
    (.obj [("name", .num 0), ("id", .str "attacker")]) (.num 0) rfl (by decide)

/-- C5: when the commit raises, the session is rolled back — the returned
store is exactly the store before the request — and the caller receives
status 500 with body `{"error": "Failed to create property"}`. -/
theorem create_property_rollback (env : Env) (db : DB) (d nm : Json)
    (hn : dictGet d "name" = some nm) (ht : pyTruthy nm = true)
    (hc : env.commitOk = false) :
    create_property (some d) env db =
      (⟨500, .obj [("error", .str "Failed to create property")]⟩, db) := by
  have hd : pyTruthy d = true := pyTruthy_of_dictGet hn
  simp [create_property, hn, hd, pyTruthyOpt, ht, hc]

/-- C5 witness: a valid body against a failing backend leaves the empty
store empty and reports the 500 error. -/
theorem create_property_rollback_witness :
    create_property (some (.obj [("name", .str "Main Tower")])) envFail emptyDB =
      (⟨500, .obj [("error", .str "Failed to create property")]⟩, emptyDB) :=
  create_property_rollback envFail emptyDB (.obj [("name", .str "Main Tower")])
    (.str "Main Tower") rfl (by decide) rfl

/-- `hexChars` always yields exactly its requested width. -/
theorem hexChars_length (w : Nat) : ∀ n, (hexChars w n).length = w := by
  induction w with
  | zero => intro n; rfl
  | succ w ih => intro n; simp [hexChars, ih]

/-- `str(uuid.uuid4())` is always 36 characters (8-4-4-4-12 plus four
hyphens). -/
theorem default_uuid_length (r : Nat) : (default_uuid r).length = 36 := by
  simp [default_uuid, String.length, hexChars_length]

/-- C4: creating a Property from a body with a truthy `name`, when the drawn
UUID does not collide with an existing id, appends exactly one row and
returns 201 with its serialization: the `id` is the freshly generated
36-character identifier (unique in the store), `name`/`address` echo the
input, and `created_at`/`updated_at` are both set to the same commit
timestamp. -/
theorem create_property_creates (env : Env) (db : DB) (d nm : Json)
    (hn : dictGet d "name" = some nm) (ht : pyTruthy nm = true)
    (hc : env.commitOk = true)
    (hfresh : default_uuid env.uuidBits ∉ db.properties.map Property.id) :
    ∃ row : Property,
      create_property (some d) env db =
        (⟨201, row.to_dict⟩, { db with properties := db.properties ++ [row] }) ∧
      row.id = default_uuid env.uuidBits ∧
      row.id.length = 36 ∧
      row.id ∉ db.properties.map Property.id ∧
      ((({ db with properties := db.properties ++ [row] } : DB).properties.filter
          (fun p => p.id == row.id)).length = 1) ∧
      row.name = nm ∧
      row.address = (dictGet d "address").getD .null ∧
      row.created_at = some env.now ∧
      row.updated_at = row.created_at ∧
      dictGet row.to_dict "id" = some (.str row.id) ∧
      dictGet row.to_dict "name" = some nm ∧
      dictGet row.to_dict "address" = some ((dictGet d "address").getD .null) ∧
      dictGet row.to_dict "created_at" = some (.str env.now.isoformat) ∧
      dictGet row.to_dict "updated_at" = dictGet row.to_dict "created_at" := by
  refine ⟨newPropertyRow env nm ((dictGet d "address").getD .null),
    create_property_ok env db hn ht hc, rfl, default_uuid_length _, hfresh, ?_, rfl, rfl,
    rfl, rfl, ?_, ?_, ?_, ?_, ?_⟩
  · have hnone : db.properties.filter
        (fun p => p.id == default_uuid env.uuidBits) = [] := by
      rw [List.filter_eq_nil_iff]
      intro p hp hbeq
      simp only [beq_iff_eq] at hbeq
      exact hfresh (hbeq ▸ List.mem_map_of_mem Property.id hp)
    simp [List.filter_append, newPropertyRow, hnone]
  · simp [Property.to_dict, newPropertyRow, dictGet, List.find?]
  · simp [Property.to_dict, newPropertyRow, dictGet, List.find?]
  · simp [Property.to_dict, newPropertyRow, dictGet, List.find?]
  · simp [Property.to_dict, newPropertyRow, dictGet, List.find?, optDateTimeIso]
  · simp [Property.to_dict, newPropertyRow, dictGet, List.find?, optDateTimeIso]

/-- C4 witness: the example body `{"name": "Main Tower"}` against the empty
store. -/
theorem create_property_creates_witness :
    ∃ row : Property,
      create_property (some (.obj [("name", .str "Main Tower")])) envOk emptyDB =
        (⟨201, row.to_dict⟩, { emptyDB with properties := emptyDB.properties ++ [row] }) ∧
      row.id = default_uuid envOk.uuidBits ∧
      row.id.length = 36 ∧
      row.id ∉ emptyDB.properties.map Property.id ∧
      ((({ emptyDB with properties := emptyDB.properties ++ [row] } : DB).properties.filter
          (fun p => p.id == row.id)).length = 1) ∧
      row.name = .str "Main Tower" ∧
      row.address = (dictGet (.obj [("name", .str "Main Tower")]) "address").getD .null ∧
      row.created_at = some envOk.now ∧
      row.updated_at = row.created_at ∧
      dictGet row.to_dict "id" = some (.str row.id) ∧
      dictGet row.to_dict "name" = some (.str "Main Tower") ∧
      dictGet row.to_dict "address" =
        some ((dictGet (.obj [("name", .str "Main Tower")]) "address").getD .null) ∧
      dictGet row.to_dict "created_at" = some (.str envOk.now.isoformat) ∧
      dictGet row.to_dict "updated_at" = dictGet row.to_dict "created_at" :=
  create_property_creates envOk emptyDB (.obj [("name", .str "Main Tower")])
    (.str "Main Tower") rfl (by decide) rfl (by simp [emptyDB])

/-- C10: two create-Property requests whose bodies agree on `name` and
`address` are handled identically under the same server-side nondeterminism,
whatever other keys (including a client-supplied `id`) the bodies carry; the
persisted row is built from `name` and `address` alone and its id is the
server-generated UUID, never taken from the body. -/
theorem create_property_ignores_other_fields (env : Env) (db : DB) (d1 d2 nm : Json)
    (hn1 : dictGet d1 "name" = some nm) (hn2 : dictGet d2 "name" = some nm)
    (ha : dictGet d1 "address" = dictGet d2 "address")
    (ht : pyTruthy nm = true) (hc : env.commitOk = true) :
    create_property (some d1) env db = create_property (some d2) env db ∧
    (create_property (some d1) env db).2.properties =
      db.properties ++ [newPropertyRow env nm ((dictGet d1 "address").getD .null)] ∧
    (newPropertyRow env nm ((dictGet d1 "address").getD .null)).id =
      default_uuid env.uuidBits := by
  refine ⟨?_, ?_, rfl⟩
  · rw [create_property_ok env db hn1 ht hc, create_property_ok env db hn2 ht hc, ha]
  · rw [create_property_ok env db hn1 ht hc]

/-- C10 witness: the bodies `{"name": "Main Tower"}` and
`{"name": "Main Tower", "id": "attacker-chosen", "extra": 1}` produce
identical results. -/
theorem create_property_ignores_other_fields_witness :
    create_property (some (.obj [("name", .str "Main Tower")])) envOk emptyDB =
      create_property
        (some (.obj [("name", .str "Main Tower"), ("id", .str "attacker-chosen"),
                     ("extra", .num 1)])) envOk emptyDB ∧
    (create_property (some (.obj [("name", .str "Main Tower")])) envOk emptyDB).2.properties =
      emptyDB.properties ++
        [newPropertyRow envOk (.str "Main Tower")
          ((dictGet (.obj [("name", .str "Main Tower")]) "address").getD .null)] ∧
    (newPropertyRow envOk (.str "Main Tower")
        ((dictGet (.obj [("name", .str "Main Tower")]) "address").getD .null)).id =
      default_uuid envOk.uuidBits :=
  create_property_ignores_other_fields envOk emptyDB (.obj [("name", .str "Main Tower")])
    (.obj [("name", .str "Main Tower"), ("id", .str "attacker-chosen"), ("extra", .num 1)])
    (.str "Main Tower") rfl rfl rfl (by decide) rfl

/-- A batch of create-Property requests, each with its own body and
per-request nondeterminism, run left to right. -/
def runCreates (reqs : List (Json × Env)) (db : DB) : DB :=
  reqs.foldl (fun db r => (create_property (some r.1) r.2 db).2) db

/-- The row a single request of the batch persists. -/
def rowOf (r : Json × Env) : Property :=
  newPropertyRow r.2 ((dictGet r.1 "name").getD .null) ((dictGet r.1 "address").getD .null)

/-- Running a batch of valid requests against working backends appends
exactly one row per request, in order. -/
theorem runCreates_properties (reqs : List (Json × Env)) :
    ∀ db : DB, (∀ r ∈ reqs, pyTruthyOpt (dictGet r.1 "name") = true ∧ r.2.commitOk = true) →
    (runCreates reqs db).properties = db.properties ++ reqs.map rowOf := by
  induction reqs with
  | nil => intro db _; simp [runCreates]
  | cons r rs ih =>
    intro db h
    obtain ⟨hname, hcommit⟩ := h r (List.mem_cons_self r rs)
    obtain ⟨nm, hn, ht⟩ : ∃ nm, dictGet r.1 "name" = some nm ∧ pyTruthy nm = true := by
      cases hg : dictGet r.1 "name" with
      | none => rw [hg] at hname; simp [pyTruthyOpt] at hname
      | some v => rw [hg] at hname; exact ⟨v, rfl, hname⟩
    have hstep : (create_property (some r.1) r.2 db).2 =
        { db with properties := db.properties ++ [rowOf r] } := by
      rw [create_property_ok r.2 db hn ht hcommit]
      simp [rowOf, hn]
    have hrs : ∀ q ∈ rs, pyTruthyOpt (dictGet q.1 "name") = true ∧ q.2.commitOk = true :=
      fun q hq => h q (List.mem_cons_of_mem r hq)
    calc (runCreates (r :: rs) db).properties
        = (runCreates rs ((create_property (some r.1) r.2 db).2)).properties := by
          simp [runCreates, List.foldl]
      _ = (db.properties ++ [rowOf r]) ++ rs.map rowOf := by
          rw [hstep, ih _ hrs]
      _ = db.properties ++ (r :: rs).map rowOf := by simp

/-- C6: after a batch of N valid creations against the empty store, listing
returns status 200 with exactly N serialized entries, the i-th round-tripping
the `name` and `address` supplied by the i-th request; when the storage query
fails, the route returns the 500 error body and no list at all. -/
theorem get_properties_roundtrip (reqs : List (Json × Env)) (env envBad : Env)
    (h : ∀ r ∈ reqs, pyTruthyOpt (dictGet r.1 "name") = true ∧ r.2.commitOk = true)
    (hq : env.queryOk = true) (hb : envBad.queryOk = false) :
    (runCreates reqs emptyDB).properties.length = reqs.length ∧
    get_properties env (runCreates reqs emptyDB) =
      ⟨200, .arr (reqs.map (fun r => (rowOf r).to_dict))⟩ ∧
    (∀ r ∈ reqs,
        dictGet (rowOf r).to_dict "name" = some ((dictGet r.1 "name").getD .null) ∧
        dictGet (rowOf r).to_dict "address" = some ((dictGet r.1 "address").getD .null)) ∧
    (∀ db : DB, get_properties envBad db =
      ⟨500, .obj [("error", .str "Failed to fetch properties")]⟩) := by
  have hp := runCreates_properties reqs emptyDB h
  refine ⟨?_, ?_, ?_, ?_⟩
  · rw [hp]; simp [emptyDB]
  · rw [get_properties, if_pos hq, hp]
    simp [emptyDB]
  · intro r _
    constructor
    · simp [rowOf, newPropertyRow, Property.to_dict, dictGet, List.find?]
    · simp [rowOf, newPropertyRow, Property.to_dict, dictGet, List.find?]
  · intro db
    rw [get_properties, if_neg (by simp [hb])]

/-- C6 witness: two valid creations then a listing; a failing backend yields
the 500 body. -/
theorem get_properties_roundtrip_witness :
    (runCreates [(.obj [("name", .str "Main Tower")], envOk),
                 (.obj [("name", .str "Annex"), ("address", .str "2 Side St")], envOk)]
        emptyDB).properties.length =
      [(Json.obj [("name", Json.str "Main Tower")], envOk),
       (Json.obj [("name", Json.str "Annex"), ("address", Json.str "2 Side St")],
        envOk)].length ∧
    get_properties envOk
        (runCreates [(.obj [("name", .str "Main Tower")], envOk),
                     (.obj [("name", .str "Annex"), ("address", .str "2 Side St")], envOk)]
          emptyDB) =
      ⟨200, .arr ([(Json.obj [("name", Json.str "Main Tower")], envOk),
                   (Json.obj [("name", Json.str "Annex"), ("address", Json.str "2 Side St")],
                    envOk)].map (fun r => (rowOf r).to_dict))⟩ ∧
    (∀ r ∈ [(Json.obj [("name", Json.str "Main Tower")], envOk),
            (Json.obj [("name", Json.str "Annex"), ("address", Json.str "2 Side St")], envOk)],
        dictGet (rowOf r).to_dict "name" = some ((dictGet r.1 "name").getD .null) ∧
        dictGet (rowOf r).to_dict "address" = some ((dictGet r.1 "address").getD .null)) ∧
    (∀ db : DB, get_properties envFail db =
      ⟨500, .obj [("error", .str "Failed to fetch properties")]⟩) := by
  refine get_properties_roundtrip _ envOk envFail ?_ rfl rfl
  intro r hr
  simp only [List.mem_cons, List.not_mem_nil, or_false] at hr
  rcases hr with hr | hr <;> subst hr <;> exact ⟨by decide, rfl⟩

/-- C7: serializing an Asset with `include_connections=True` adds the keys
`connections_from` and `connections_to`, holding exactly the serializations
of the connections leaving and entering the asset; with the flag false the
keys are absent. The filtered lists are characterized extensionally: a
connection is listed under `connections_from` iff it is stored and its
`from_asset_id` is this asset, and dually for `connections_to`. -/
theorem asset_to_dict_connections_flag (db : DB) (a : Asset) :
    dictGet (Asset.to_dict db a true) "connections_from" =
      some (.arr ((connectionsFrom db a.id).map Connection.to_dict)) ∧
    dictGet (Asset.to_dict db a true) "connections_to" =
      some (.arr ((connectionsTo db a.id).map Connection.to_dict)) ∧
    dictGet (Asset.to_dict db a false) "connections_from" = none ∧
    dictGet (Asset.to_dict db a false) "connections_to" = none ∧
    (∀ c : Connection, c ∈ connectionsFrom db a.id ↔
      c ∈ db.connections ∧ c.from_asset_id = a.id) ∧
    (∀ c : Connection, c ∈ connectionsTo db a.id ↔
      c ∈ db.connections ∧ c.to_asset_id = a.id) := by
  refine ⟨?_, ?_, ?_, ?_, ?_, ?_⟩
  · simp [Asset.to_dict, dictGet, List.find?]
  · simp [Asset.to_dict, dictGet, List.find?]
  · simp [Asset.to_dict, dictGet, List.find?]
  · simp [Asset.to_dict, dictGet, List.find?]
  · intro c; simp [connectionsFrom, List.mem_filter]
  · intro c; simp [connectionsTo, List.mem_filter]

/-- `padDigits` always yields exactly its requested width. -/
theorem padDigits_length (w : Nat) : ∀ n, (padDigits w n).length = w := by
  induction w with
  | zero => intro n; rfl
  | succ w ih => intro n; simp [padDigits, ih]

/-- `datetime.isoformat()` renders the fixed 19-character
`YYYY-MM-DDTHH:MM:SS` layout. -/
theorem dateTime_isoformat_length (t : DateTime) : t.isoformat.length = 19 := by
  simp [DateTime.isoformat, padNum, String.length, padDigits_length]

/-- `date.isoformat()` renders the fixed 10-character `YYYY-MM-DD` layout. -/
theorem date_isoformat_length (d : Date) : d.isoformat.length = 10 := by
  simp [Date.isoformat, padNum, String.length, padDigits_length]

/-- C8: serialization is a pure function of the row: serializing the same
Asset with connections excluded is independent of the store, every decimal
column appears as its numeric value when set and as null when unset, and
every date (`install_date`) and timestamp (`created_at`/`updated_at`)
column appears as its fixed-layout ISO-8601 rendering when set and as null
when unset — on Assets and on Properties alike. -/
theorem serialization_pure_shapes (db db2 : DB) (a : Asset) (p : Property) :
    Asset.to_dict db a false = Asset.to_dict db2 a false ∧
    dictGet (Asset.to_dict db a false) "location_angle_degrees" =
      some (optNum a.location_angle_degrees) ∧
    dictGet (Asset.to_dict db a false) "location_height_percent" =
      some (optNum a.location_height_percent) ∧
    dictGet (Asset.to_dict db a false) "location_depth_percent" =
      some (optNum a.location_depth_percent) ∧
    dictGet (Asset.to_dict db a false) "wall_length" = some (optNum a.wall_length) ∧
    dictGet (Asset.to_dict db a false) "wall_height" = some (optNum a.wall_height) ∧
    dictGet (Asset.to_dict db a false) "install_date" = some (optDateIso a.install_date) ∧
    dictGet (Asset.to_dict db a false) "created_at" = some (optDateTimeIso a.created_at) ∧
    dictGet (Asset.to_dict db a false) "updated_at" = some (optDateTimeIso a.updated_at) ∧
    dictGet p.to_dict "created_at" = some (optDateTimeIso p.created_at) ∧
    dictGet p.to_dict "updated_at" = some (optDateTimeIso p.updated_at) ∧
    (∀ q : ℚ, optNum (some q) = .num q) ∧ optNum none = .null ∧
    (∀ d : Date, optDateIso (some d) = .str d.isoformat) ∧ optDateIso none = .null ∧
    (∀ t : DateTime, optDateTimeIso (some t) = .str t.isoformat) ∧
    optDateTimeIso none = .null ∧
    (∀ d : Date, d.isoformat.length = 10) ∧
    (∀ t : DateTime, t.isoformat.length = 19) := by
  refine ⟨rfl, ?_, ?_, ?_, ?_, ?_, ?_, ?_, ?_, ?_, ?_,
    fun q => rfl, rfl, fun d => rfl, rfl, fun t => rfl, rfl,
    date_isoformat_length, dateTime_isoformat_length⟩
  all_goals simp [Asset.to_dict, Property.to_dict, dictGet, List.find?]

/-- A sample asset in room `r1` with no optional fields set. -/
def sampleAsset (aid : String) : Asset :=
  { id := aid
    room_id := some "r1"
    asset_type := "door"
    name := some ("asset " ++ aid)
    description := none
    install_date := none
    status := "Active"
    location_angle_degrees := none
    location_height_percent := none
    location_depth_percent := none
    location_notes := none
    wall_length := none
    wall_length_unit := none
    wall_height := none
    wall_height_unit := none
    attributes := .obj []
    created_at := some ts0
    updated_at := some ts0 }

/-- A store holding one full ownership chain: property `p1` → building `b1`
→ floor `f1` → room `r1` → assets `a1`, `a2`, with a connection `a1 → a2`
and a journal entry about `a1`. -/
def sampleDB : DB where
  properties := [{ id := "p1", name := .str "Main", address := .null,
                   created_at := some ts0, updated_at := some ts0 }]
  buildings := [{ id := "b1", property_id := "p1", name := "B", building_type := none,
                  created_at := some ts0, updated_at := some ts0 }]
  floors := [{ id := "f1", building_id := "b1", name := "F", level_order := 0,
               created_at := some ts0, updated_at := some ts0 }]
  rooms := [{ id := "r1", floor_id := "f1", name := "R", description := none,
              reference_door_asset_id := some "a1",
              created_at := some ts0, updated_at := some ts0 }]
  assets := [sampleAsset "a1", sampleAsset "a2"]
  connections := [{ id := "c1", from_asset_id := "a1", to_asset_id := "a2",
                    connection_type := "cable", description := none,
                    created_at := some ts0 }]
  journals := [{ id := 1, asset_id := "a1", user_identifier := "System",
                 timestamp := some ts0, action := "Create", details := .obj [] }]

/-- C1 counterexample: in `sampleDB` the assets `a1`, `a2`, their connection
and the journal entry are all transitively owned by property `p1`, yet after
`deleteProperty` the asset, connection and journal tables are not empty —
`Room.assets` (src/app.py line 130) declares no delete cascade, so the
cascade stops at the Room level. -/
theorem delete_property_cascade_cex :
    ¬ ((deleteProperty sampleDB "p1").assets.length = 0 ∧
       (deleteProperty sampleDB "p1").connections.length = 0 ∧
       (deleteProperty sampleDB "p1").journals.length = 0) := by
  intro h
  have : (deleteProperty sampleDB "p1").assets.length = 2 := by decide
  omega

/-- Re-filtering by a predicate that the first filter removed yields nothing. -/
theorem filter_not_filter {α : Type} (p : α → Bool) (l : List α) :
    (l.filter (fun x => !p x)).filter p = [] := by
  induction l with
  | nil => rfl
  | cons x xs ih =>
    by_cases h : p x <;> simp [List.filter, h, ih]

/-- C1 amended: deleting a Property deletes it together with all descendant
Buildings, Floors and Rooms, but the cascade stops there: the Assets of the
deleted Rooms are kept (only de-associated, their `room_id` nulled, and the
asset count unchanged), and the Connection and Journal tables are untouched. -/
theorem delete_property_cascade (db : DB) (pid : String) :
    (deleteProperty db pid).properties.filter (fun p => p.id == pid) = [] ∧
    (deleteProperty db pid).buildings.filter (fun b => b.property_id == pid) = [] ∧
    (deleteProperty db pid).floors.filter
      (fun f => (buildingIdsOf db pid).contains f.building_id) = [] ∧
    (deleteProperty db pid).rooms.filter
      (fun r => (floorIdsOf db (buildingIdsOf db pid)).contains r.floor_id) = [] ∧
    (deleteProperty db pid).assets = db.assets.map (fun a =>
      if a.inRooms (roomIdsOf db (floorIdsOf db (buildingIdsOf db pid))) then
        { a with room_id := none }
      else a) ∧
    (deleteProperty db pid).assets.length = db.assets.length ∧
    (deleteProperty db pid).connections = db.connections ∧
    (deleteProperty db pid).journals = db.journals := by
  refine ⟨filter_not_filter _ _, filter_not_filter _ _, filter_not_filter _ _,
    filter_not_filter _ _, rfl, by simp [deleteProperty], rfl, rfl⟩

/-- C2: a Room and an Asset that mutually reference each other (the Room's
`reference_door_asset_id` naming the Asset, the Asset's `room_id` naming the
Room) can be created in either order against any store containing the Room's
Floor: the first entity is inserted with its cross-reference NULL (both FKs
are nullable), the second with its reference set, and the first is then
patched — the `post_update` flush pattern of the deferred
`fk_room_reference_door` constraint. Every statement-level FK check passes
and the resulting store holds the mutually referencing pair. -/
theorem room_asset_circular_creation (db : DB) (room : Room) (asset : Asset)
    (hfl : floorExists db room.floor_id = true)
    (href : room.reference_door_asset_id = some asset.id)
    (hrm : asset.room_id = some room.id) :
    (∃ db1, createPairRoomFirst db room asset = some db1 ∧
      mutualPair db1 room.id asset.id) ∧
    (∃ db2, createPairAssetFirst db room asset = some db2 ∧
      mutualPair db2 room.id asset.id) := by
  constructor
  · -- Room first: INSERT room (reference door NULL), INSERT asset, UPDATE room.
    have h1 : insertRoom db { room with reference_door_asset_id := none } =
        some { db with rooms := db.rooms ++ [{ room with reference_door_asset_id := none }] } := by
      simp [insertRoom, optFkOk, hfl]
    have h2 : insertAsset
        { db with rooms := db.rooms ++ [{ room with reference_door_asset_id := none }] } asset =
        some { db with
          rooms := db.rooms ++ [{ room with reference_door_asset_id := none }]
          assets := db.assets ++ [asset] } := by
      simp [insertAsset, optFkOk, hrm, roomExists, List.any_append]
    have h3 : setRoomReferenceDoor
        { db with
          rooms := db.rooms ++ [{ room with reference_door_asset_id := none }]
          assets := db.assets ++ [asset] } room.id (some asset.id) =
        some { db with
          rooms := (db.rooms ++ [{ room with reference_door_asset_id := none }]).map
            (fun (r : Room) => if r.id == room.id then
              { r with reference_door_asset_id := some asset.id } else r)
          assets := db.assets ++ [asset] } := by
      simp [setRoomReferenceDoor, optFkOk, assetExists, List.any_append]
    have hrun : createPairRoomFirst db room asset =
        some { db with
          rooms := (db.rooms ++ [{ room with reference_door_asset_id := none }]).map
            (fun (r : Room) => if r.id == room.id then
              { r with reference_door_asset_id := some asset.id } else r)
          assets := db.assets ++ [asset] } := by
      rw [createPairRoomFirst, h1]
      show (insertAsset _ asset).bind _ = _
      rw [h2]
      show setRoomReferenceDoor _ room.id room.reference_door_asset_id = _
      rw [href, h3]
    refine ⟨_, hrun, ?_, ⟨asset, List.mem_append_right _ (by simp), rfl, hrm⟩⟩
    refine ⟨{ room with reference_door_asset_id := some asset.id }, ?_, rfl, rfl⟩
    rw [List.map_append]
    exact List.mem_append_right _ (by simp)
  · -- Asset first: INSERT asset (room_id NULL), INSERT room, UPDATE asset.
    have h1 : insertAsset db { asset with room_id := none } =
        some { db with assets := db.assets ++ [{ asset with room_id := none }] } := by
      simp [insertAsset, optFkOk]
    have hfl1 : floorExists
        { db with assets := db.assets ++ [{ asset with room_id := none }] }
        room.floor_id = true := hfl
    have h2 : insertRoom
        { db with assets := db.assets ++ [{ asset with room_id := none }] } room =
        some { db with
          assets := db.assets ++ [{ asset with room_id := none }]
          rooms := db.rooms ++ [room] } := by
      rw [insertRoom, hfl1, href]
      simp [optFkOk, assetExists, List.any_append]
    have h3 : setAssetRoom
        { db with
          assets := db.assets ++ [{ asset with room_id := none }]
          rooms := db.rooms ++ [room] } asset.id (some room.id) =
        some { db with
          assets := (db.assets ++ [{ asset with room_id := none }]).map
            (fun (a : Asset) => if a.id == asset.id then { a with room_id := some room.id } else a)
          rooms := db.rooms ++ [room] } := by
      simp [setAssetRoom, optFkOk, roomExists, List.any_append]
    have hrun : createPairAssetFirst db room asset =
        some { db with
          assets := (db.assets ++ [{ asset with room_id := none }]).map
            (fun (a : Asset) => if a.id == asset.id then { a with room_id := some room.id } else a)
          rooms := db.rooms ++ [room] } := by
      rw [createPairAssetFirst, h1]
      show (insertRoom _ room).bind _ = _
      rw [h2]
      show setAssetRoom _ asset.id asset.room_id = _
      rw [hrm, h3]
    refine ⟨_, hrun, ⟨room, List.mem_append_right _ (by simp), rfl, href⟩, ?_⟩
    refine ⟨{ asset with room_id := some room.id }, ?_, rfl, rfl⟩
    rw [List.map_append]
    exact List.mem_append_right _ (by simp)

/-- A sample room in floor `f1` whose reference door is asset `a9`. -/
def roomR9 : Room :=
  { id := "r9", floor_id := "f1", name := "Lobby", description := none,
    reference_door_asset_id := some "a9",
    created_at := some ts0, updated_at := some ts0 }

/-- A sample asset contained in room `r9`. -/
def assetA9 : Asset :=
  { sampleAsset "a9" with room_id := some "r9" }

/-- C2 witness: the mutually referencing pair `r9` ↔ `a9` is created in both
orders against `sampleDB` (which holds floor `f1`). -/
theorem room_asset_circular_creation_witness :
    (∃ db1, createPairRoomFirst sampleDB roomR9 assetA9 = some db1 ∧
      mutualPair db1 roomR9.id assetA9.id) ∧
    (∃ db2, createPairAssetFirst sampleDB roomR9 assetA9 = some db2 ∧
      mutualPair db2 roomR9.id assetA9.id) :=
  room_asset_circular_creation sampleDB roomR9 assetA9 (by decide) rfl rfl

end Speccs
